import Mathlib

/-!
Verification of the pulumi-railway bridge core: the value-conversion engine,
the naming rule, the schema-only provider adapter, and the metadata
marshalling layer, shallowly embedded in Lean 4.
-/

/-- Rounding of a rational to 53 bits of significand precision with unbounded
exponent. This models the precision loss of storing a Terraform `big.Float`
number into a Pulumi property number (a 64-bit IEEE float with a 53-bit
significand), exactly as the repository's test `normNum` does via
`big.Float.SetPrec(53)`. Zero maps to zero; a nonzero `q` is scaled by a power
of two so that its magnitude lies in `[2^52, 2^53)`, rounded to the nearest
integer, and scaled back. -/
def round53 (q : ℚ) : ℚ :=
  if q = 0 then 0
  else
    (if q < 0 then (-1 : ℚ) else 1) *
      ((round (|q| * (2 : ℚ) ^ (-(Int.log 2 |q| - 52))) : ℤ) : ℚ) *
      (2 : ℚ) ^ (Int.log 2 |q| - 52)

lemma round53_of_ne (q : ℚ) (hq : q ≠ 0) :
    round53 q = (if q < 0 then (-1 : ℚ) else 1) *
      ((round (|q| * (2 : ℚ) ^ (-(Int.log 2 |q| - 52))) : ℤ) : ℚ) *
      (2 : ℚ) ^ (Int.log 2 |q| - 52) := by
  simp [round53, hq]

lemma sign_mul_abs_eq (q : ℚ) : (if q < 0 then (-1 : ℚ) else 1) * |q| = q := by
  rcases lt_or_le q 0 with h | h
  · simp [if_pos h, abs_of_neg h]
  · simp [if_neg (not_lt.mpr h), abs_of_nonneg h]

/-- If scaling `|q|` into the `[2^52, 2^53)` window lands exactly on an
integer, then 53-bit rounding does not change `q`. -/
lemma round53_eq_self (q : ℚ) (hq : q ≠ 0) (m : ℤ)
    (hm : |q| * (2 : ℚ) ^ (-(Int.log 2 |q| - 52)) = (m : ℚ)) : round53 q = q := by
  have h2 : (2 : ℚ) ≠ 0 := two_ne_zero
  rw [round53_of_ne q hq, hm, round_intCast, ← hm, mul_assoc, mul_assoc,
    ← zpow_add₀ h2, neg_add_cancel, zpow_zero, mul_one, sign_mul_abs_eq]

lemma nat_two_cast_rat : ((2 : ℕ) : ℚ) = (2 : ℚ) := by norm_num

/-- 53-bit rounding is the identity on integers of magnitude at most `2^53`
(the safely representable integer range of a 64-bit float). -/
lemma round53_intCast (n : ℤ) (h : |n| ≤ 2 ^ 53) : round53 ((n : ℤ) : ℚ) = (n : ℚ) := by
  rcases eq_or_ne n 0 with rfl | hn
  · simp [round53]
  have hq : ((n : ℤ) : ℚ) ≠ 0 := Int.cast_ne_zero.mpr hn
  have habs : |((n : ℤ) : ℚ)| = ((|n| : ℤ) : ℚ) := (Int.cast_abs).symm
  have hpos : (0 : ℚ) < |((n : ℤ) : ℚ)| := abs_pos.mpr hq
  have habs_le : |((n : ℤ) : ℚ)| ≤ (2 : ℚ) ^ (53 : ℤ) := by
    rw [habs]
    calc ((|n| : ℤ) : ℚ) ≤ (((2 : ℤ) ^ 53 : ℤ) : ℚ) := by exact_mod_cast h
    _ = (2 : ℚ) ^ (53 : ℤ) := by push_cast; norm_num
  have hlt : |((n : ℤ) : ℚ)| < ((2 : ℕ) : ℚ) ^ (54 : ℤ) := by
    rw [nat_two_cast_rat]
    calc |((n : ℤ) : ℚ)| ≤ (2 : ℚ) ^ (53 : ℤ) := habs_le
    _ < (2 : ℚ) ^ (54 : ℤ) := by
        apply zpow_lt_zpow_right₀ (by norm_num) (by norm_num)
  have hL : Int.log 2 |((n : ℤ) : ℚ)| ≤ 53 := by
    have := (Int.lt_zpow_iff_log_lt (by norm_num) hpos).mp hlt
    omega
  rcases le_or_lt (Int.log 2 |((n : ℤ) : ℚ)|) 52 with hle | hgt
  · -- the scaling exponent is nonnegative, the scaled value is an integer
    have he : (0 : ℤ) ≤ -(Int.log 2 |((n : ℤ) : ℚ)| - 52) := by omega
    obtain ⟨k, hk⟩ := Int.eq_ofNat_of_zero_le he
    refine round53_eq_self _ hq (|n| * 2 ^ k) ?_
    rw [hk, zpow_natCast]
    push_cast
    ring
  · -- here the log is 53 and |n| must be exactly 2^53
    have hL53 : Int.log 2 |((n : ℤ) : ℚ)| = 53 := by omega
    have hlow : (2 : ℚ) ^ (53 : ℤ) ≤ |((n : ℤ) : ℚ)| := by
      have h0 := Int.zpow_log_le_self (b := 2) (by norm_num) hpos
      rw [hL53] at h0
      calc (2 : ℚ) ^ (53 : ℤ) = ((2 : ℕ) : ℚ) ^ (53 : ℤ) := by rw [nat_two_cast_rat]
      _ ≤ |((n : ℤ) : ℚ)| := h0
    have heq : |((n : ℤ) : ℚ)| = (2 : ℚ) ^ (53 : ℤ) := le_antisymm habs_le hlow
    have hlog : Int.log 2 ((2 : ℚ) ^ (53 : ℤ)) = 53 := by
      rw [← nat_two_cast_rat]
      exact Int.log_zpow (by norm_num) 53
    refine round53_eq_self _ hq (2 ^ 52) ?_
    rw [heq, hlog, show (-(53 - 52 : ℤ)) = (-1 : ℤ) by norm_num,
      ← zpow_add₀ (two_ne_zero : (2 : ℚ) ≠ 0)]
    push_cast
    norm_num

lemma floor_le_round_q (x : ℚ) : ⌊x⌋ ≤ round x := by
  rw [round]
  split
  · exact le_rfl
  · exact Int.floor_le_ceil x

lemma round_le_ceil_q (x : ℚ) : round x ≤ ⌈x⌉ := by
  rw [round]
  split
  · exact Int.floor_le_ceil x
  · exact le_rfl

/-- A nonzero rational rounds at 53 bits to a signed integer significand in
`[2^52, 2^53]` times a power of two. -/
lemma round53_form (q : ℚ) (hq : q ≠ 0) :
    ∃ m : ℤ, (2 : ℤ) ^ 52 ≤ m ∧ m ≤ (2 : ℤ) ^ 53 ∧
      round53 q = (if q < 0 then (-1 : ℚ) else 1) * (m : ℚ) *
        (2 : ℚ) ^ (Int.log 2 |q| - 52) := by
  have hpos : (0 : ℚ) < |q| := abs_pos.mpr hq
  have hzp : (0 : ℚ) < (2 : ℚ) ^ (-(Int.log 2 |q| - 52)) := zpow_pos (by norm_num) _
  have hxlow : (2 : ℚ) ^ (52 : ℤ) ≤ |q| * (2 : ℚ) ^ (-(Int.log 2 |q| - 52)) := by
    have h0 : (2 : ℚ) ^ (Int.log 2 |q|) ≤ |q| := by
      calc (2 : ℚ) ^ (Int.log 2 |q|) = ((2 : ℕ) : ℚ) ^ (Int.log 2 |q|) := by norm_num
      _ ≤ |q| := Int.zpow_log_le_self (by norm_num) hpos
    calc (2 : ℚ) ^ (52 : ℤ)
        = (2 : ℚ) ^ (Int.log 2 |q|) * (2 : ℚ) ^ (-(Int.log 2 |q| - 52)) := by
          rw [← zpow_add₀ (two_ne_zero : (2 : ℚ) ≠ 0)]
          congr 1
          omega
    _ ≤ |q| * (2 : ℚ) ^ (-(Int.log 2 |q| - 52)) := by
          exact mul_le_mul_of_nonneg_right h0 hzp.le
  have hxhigh : |q| * (2 : ℚ) ^ (-(Int.log 2 |q| - 52)) < (2 : ℚ) ^ (53 : ℤ) := by
    have h1 : |q| < (2 : ℚ) ^ (Int.log 2 |q| + 1) := by
      calc |q| < ((2 : ℕ) : ℚ) ^ (Int.log 2 |q| + 1) :=
            Int.lt_zpow_succ_log_self (by norm_num) _
      _ = (2 : ℚ) ^ (Int.log 2 |q| + 1) := by norm_num
    calc |q| * (2 : ℚ) ^ (-(Int.log 2 |q| - 52))
        < (2 : ℚ) ^ (Int.log 2 |q| + 1) * (2 : ℚ) ^ (-(Int.log 2 |q| - 52)) :=
          mul_lt_mul_of_pos_right h1 hzp
    _ = (2 : ℚ) ^ (53 : ℤ) := by
          rw [← zpow_add₀ (two_ne_zero : (2 : ℚ) ≠ 0)]
          congr 1
          omega
  refine ⟨round (|q| * (2 : ℚ) ^ (-(Int.log 2 |q| - 52))), ?_, ?_, ?_⟩
  · refine le_trans ?_ (floor_le_round_q _)
    refine Int.le_floor.mpr ?_
    calc (((2 : ℤ) ^ 52 : ℤ) : ℚ) = (2 : ℚ) ^ (52 : ℤ) := by norm_num
    _ ≤ _ := hxlow
  · refine le_trans (round_le_ceil_q _) ?_
    refine Int.ceil_le.mpr ?_
    calc |q| * (2 : ℚ) ^ (-(Int.log 2 |q| - 52)) ≤ (2 : ℚ) ^ (53 : ℤ) := hxhigh.le
    _ = (((2 : ℤ) ^ 53 : ℤ) : ℚ) := by norm_num
  · exact round53_of_ne q hq

/-- Any value of the form `±m * 2^e` with `2^52 ≤ m ≤ 2^53` is a fixed point
of 53-bit rounding. -/
lemma round53_fixed (m e : ℤ) (hlow : (2 : ℤ) ^ 52 ≤ m) (hhigh : m ≤ (2 : ℤ) ^ 53)
    (s : ℚ) (hs : s = 1 ∨ s = -1) :
    round53 (s * (m : ℚ) * (2 : ℚ) ^ e) = s * (m : ℚ) * (2 : ℚ) ^ e := by
  have h2 : (2 : ℚ) ≠ 0 := two_ne_zero
  have hmpos : (0 : ℚ) < (m : ℚ) := by
    have : (0 : ℤ) < m := lt_of_lt_of_le (by norm_num) hlow
    exact_mod_cast this
  have hzp : (0 : ℚ) < (2 : ℚ) ^ e := zpow_pos (by norm_num) e
  have hprod : (0 : ℚ) < (m : ℚ) * (2 : ℚ) ^ e := mul_pos hmpos hzp
  have hvne : s * (m : ℚ) * (2 : ℚ) ^ e ≠ 0 := by
    rcases hs with rfl | rfl
    · simpa using hprod.ne.symm
    · rw [neg_one_mul, neg_mul, neg_ne_zero]
      exact hprod.ne.symm
  have habs : |s * (m : ℚ) * (2 : ℚ) ^ e| = (m : ℚ) * (2 : ℚ) ^ e := by
    rcases hs with rfl | rfl
    · rw [one_mul, abs_of_pos hprod]
    · rw [neg_one_mul, neg_mul, abs_neg, abs_of_pos hprod]
  rcases lt_or_eq_of_le hhigh with hlt | heq
  · -- significand strictly below 2^53: the exponent window is unchanged
    have hmlowQ : (2 : ℚ) ^ (52 : ℤ) ≤ (m : ℚ) := by
      calc (2 : ℚ) ^ (52 : ℤ) = (((2 : ℤ) ^ 52 : ℤ) : ℚ) := by norm_num
      _ ≤ (m : ℚ) := by exact_mod_cast hlow
    have hmhighQ : (m : ℚ) < (2 : ℚ) ^ (53 : ℤ) := by
      calc (m : ℚ) < (((2 : ℤ) ^ 53 : ℤ) : ℚ) := by exact_mod_cast hlt
      _ = (2 : ℚ) ^ (53 : ℤ) := by norm_num
    have hlog : Int.log 2 |s * (m : ℚ) * (2 : ℚ) ^ e| = 52 + e := by
      have hup : |s * (m : ℚ) * (2 : ℚ) ^ e| < ((2 : ℕ) : ℚ) ^ (53 + e) := by
        rw [habs, nat_two_cast_rat]
        calc (m : ℚ) * (2 : ℚ) ^ e < (2 : ℚ) ^ (53 : ℤ) * (2 : ℚ) ^ e :=
              mul_lt_mul_of_pos_right hmhighQ hzp
        _ = (2 : ℚ) ^ (53 + e) := by rw [← zpow_add₀ h2]
      have hdown : ((2 : ℕ) : ℚ) ^ (52 + e) ≤ |s * (m : ℚ) * (2 : ℚ) ^ e| := by
        rw [habs, nat_two_cast_rat]
        calc (2 : ℚ) ^ (52 + e) = (2 : ℚ) ^ (52 : ℤ) * (2 : ℚ) ^ e := by
              rw [← zpow_add₀ h2]
        _ ≤ (m : ℚ) * (2 : ℚ) ^ e := mul_le_mul_of_nonneg_right hmlowQ hzp.le
      have habspos : (0 : ℚ) < |s * (m : ℚ) * (2 : ℚ) ^ e| := abs_pos.mpr hvne
      have h1 := (Int.zpow_le_iff_le_log (by norm_num) habspos).mp hdown
      have h2' := (Int.lt_zpow_iff_log_lt (by norm_num) habspos).mp hup
      omega
    refine round53_eq_self _ hvne m ?_
    rw [hlog, habs, show (-(52 + e - 52)) = -e by omega, mul_assoc,
      ← zpow_add₀ h2, add_neg_cancel, zpow_zero, mul_one]
  · -- significand exactly 2^53: the window shifts up by one
    have hm53 : (m : ℚ) = (2 : ℚ) ^ (53 : ℤ) := by
      calc (m : ℚ) = (((2 : ℤ) ^ 53 : ℤ) : ℚ) := by exact_mod_cast heq
      _ = (2 : ℚ) ^ (53 : ℤ) := by norm_num
    have habs' : |s * (m : ℚ) * (2 : ℚ) ^ e| = (2 : ℚ) ^ (53 + e) := by
      rw [habs, hm53, ← zpow_add₀ h2]
    have hlog : Int.log 2 |s * (m : ℚ) * (2 : ℚ) ^ e| = 53 + e := by
      rw [habs']
      calc Int.log 2 ((2 : ℚ) ^ (53 + e)) = Int.log 2 (((2 : ℕ) : ℚ) ^ (53 + e)) := by
            norm_num
      _ = 53 + e := Int.log_zpow (by norm_num) _
    refine round53_eq_self _ hvne (2 ^ 52) ?_
    rw [hlog, habs', show (-(53 + e - 52)) = (-(1 + e)) by omega, ← zpow_add₀ h2,
      show (53 + e + -(1 + e)) = (52 : ℤ) by omega]
    norm_num

/-- Modelled from the spec: the TypeDescriptor of the Typed Value Model
(`tftypes.Type`), one of Bool, Number, String, List(elem) or Object(fields);
the conversion engine that consumes it is not among the sources, only its
test file is. -/
inductive TFType where
  | bool : TFType
  | number : TFType
  | string : TFType
  | list (elem : TFType) : TFType
  | object (fields : List (String × TFType)) : TFType

/-- Modelled from the spec: a Typed Value (`tftypes.Value`), a tagged union of
Null, Unknown and Known primitive or composite shapes. -/
inductive TFValue where
  | null : TFValue
  | unknown : TFValue
  | bool (b : Bool) : TFValue
  | number (n : ℚ) : TFValue
  | string (s : String) : TFValue
  | list (elems : List TFValue) : TFValue
  | object (fields : List (String × TFValue)) : TFValue

/-- The orchestration engine's Property Value Model
(`resource.PropertyValue`): the primitive and composite shapes plus the
Computed, Secret and Output wrappers. Numbers carry the 53-bit-significand
payload of a 64-bit float, modelled as a rational. -/
inductive PropertyValue where
  | null : PropertyValue
  | bool (b : Bool) : PropertyValue
  | number (n : ℚ) : PropertyValue
  | string (s : String) : PropertyValue
  | array (elems : List PropertyValue) : PropertyValue
  | object (fields : List (String × PropertyValue)) : PropertyValue
  | computed (element : PropertyValue) : PropertyValue
  | secret (element : PropertyValue) : PropertyValue
  | output (element : PropertyValue) (known : Bool) (secretFlag : Bool)
      (dependencies : List String) : PropertyValue

/-- Modelled from the spec: the zero/default-shaped Property Value of a
TypeDescriptor — empty string for String, 0 for Number, false for Bool, empty
Array/Object for composites. -/
def zeroValue : TFType → PropertyValue
  | .bool => .bool false
  | .number => .number 0
  | .string => .string ""
  | .list _ => .array []
  | .object _ => .object []

/-- A conversion-mismatch error, reported with the offending type descriptor
and value, never silently coerced. -/
inductive ConvError where
  | tfMismatch (ty : TFType) (v : TFValue) : ConvError
  | propMismatch (ty : TFType) (v : PropertyValue) : ConvError
  | missingField (name : String) : ConvError

def findFieldType : List (String × TFType) → String → Option TFType
  | [], _ => none
  | (k, ty) :: rest, name => if k = name then some ty else findFieldType rest name

mutual

/-- Modelled from the spec: `ConvertTFValueToProperty`, the Typed-Value to
Property-Value direction of the Value Conversion Engine, keyed by a
TypeDescriptor. Null maps to Null; Unknown maps to Computed wrapping the
zero-shaped value of the descriptor; Bool/String are structural identities;
Number is preserved up to the 53-bit significand of the 64-bit float payload;
List and Object recurse; a shape mismatch is a conversion error. -/
def convertTFValueToProperty : TFType → TFValue → Except ConvError PropertyValue
  | _, .null => .ok .null
  | ty, .unknown => .ok (.computed (zeroValue ty))
  | .bool, .bool b => .ok (.bool b)
  | .number, .number q => .ok (.number (round53 q))
  | .string, .string s => .ok (.string s)
  | .list elemTy, .list elems => do
      let ps ← convertTFListToProperty elemTy elems
      return .array ps
  | .object fieldTys, .object fields => do
      let ps ← convertTFObjectToProperty fieldTys fields
      return .object ps
  | ty, v => .error (.tfMismatch ty v)

def convertTFListToProperty : TFType → List TFValue → Except ConvError (List PropertyValue)
  | _, [] => .ok []
  | elemTy, v :: rest => do
      let p ← convertTFValueToProperty elemTy v
      let ps ← convertTFListToProperty elemTy rest
      return p :: ps

def convertTFObjectToProperty :
    List (String × TFType) → List (String × TFValue) →
      Except ConvError (List (String × PropertyValue))
  | _, [] => .ok []
  | fieldTys, (k, v) :: rest =>
      match findFieldType fieldTys k with
      | none => .error (.missingField k)
      | some ty => do
          let p ← convertTFValueToProperty ty v
          let ps ← convertTFObjectToProperty fieldTys rest
          return (k, p) :: ps

end

mutual

/-- Modelled from the spec: `ConvertPropertyToTFValue`, the Property-Value to
Typed-Value direction. Null maps to Null; Computed always maps to Unknown
regardless of the wrapped placeholder; Secret is unwrapped first; an Output is
unwrapped when known and maps to Unknown otherwise; primitives are structural;
Array/Object recurse; a shape mismatch is a conversion error. -/
def convertPropertyToTFValue : TFType → PropertyValue → Except ConvError TFValue
  | _, .null => .ok .null
  | _, .computed _ => .ok .unknown
  | ty, .secret element => convertPropertyToTFValue ty element
  | ty, .output element known _ _ =>
      if known then convertPropertyToTFValue ty element else .ok .unknown
  | .bool, .bool b => .ok (.bool b)
  | .number, .number q => .ok (.number q)
  | .string, .string s => .ok (.string s)
  | .list elemTy, .array elems => do
      let vs ← convertPropArrayToTF elemTy elems
      return .list vs
  | .object fieldTys, .object fields => do
      let vs ← convertPropObjectToTF fieldTys fields
      return .object vs
  | ty, v => .error (.propMismatch ty v)

def convertPropArrayToTF : TFType → List PropertyValue → Except ConvError (List TFValue)
  | _, [] => .ok []
  | elemTy, p :: rest => do
      let v ← convertPropertyToTFValue elemTy p
      let vs ← convertPropArrayToTF elemTy rest
      return v :: vs

def convertPropObjectToTF :
    List (String × TFType) → List (String × PropertyValue) →
      Except ConvError (List (String × TFValue))
  | _, [] => .ok []
  | fieldTys, (k, p) :: rest =>
      match findFieldType fieldTys k with
      | none => .error (.missingField k)
      | some ty => do
          let v ← convertPropertyToTFValue ty p
          let vs ← convertPropObjectToTF fieldTys rest
          return (k, v) :: vs

end

mutual

/-- A Known Typed value of the given shape: not Null, not Unknown, and with
the runtime shape demanded by the TypeDescriptor at every node. -/
def knownOfShape : TFType → TFValue → Bool
  | .bool, .bool _ => true
  | .number, .number _ => true
  | .string, .string _ => true
  | .list elemTy, .list elems => knownOfShapeList elemTy elems
  | .object fieldTys, .object fields => knownOfShapeObject fieldTys fields
  | _, _ => false

def knownOfShapeList : TFType → List TFValue → Bool
  | _, [] => true
  | ty, v :: rest => knownOfShape ty v && knownOfShapeList ty rest

def knownOfShapeObject : List (String × TFType) → List (String × TFValue) → Bool
  | _, [] => true
  | tys, (k, v) :: rest =>
      (match findFieldType tys k with
       | some ty => knownOfShape ty v
       | none => false) && knownOfShapeObject tys rest

end

/-- The number round trip: Typed Number to Property and back. -/
def numberRoundTrip (q : ℚ) : Except ConvError TFValue :=
  (convertTFValueToProperty .number (.number q)).bind (convertPropertyToTFValue .number)

/-- 53-bit rounding is idempotent: re-rounding an already rounded value does
not change it. -/
lemma round53_idem (q : ℚ) : round53 (round53 q) = round53 q := by
  rcases eq_or_ne q 0 with rfl | hq
  · simp [round53]
  obtain ⟨m, hlow, hhigh, hform⟩ := round53_form q hq
  rw [hform]
  refine round53_fixed m _ hlow hhigh _ ?_
  rcases lt_or_le q 0 with h | h
  · right; simp [if_pos h]
  · left; simp [if_neg (not_lt.mpr h)]

/-- Whether a TypeDescriptor is a List type, as checked by
`typ.Is(tftypes.List{})` in naming.go. -/
def TFType.isList : TFType → Bool
  | .list _ => true
  | _ => false

/-- `willPluralize` from naming.go, parametric in the external inflector
library's `Pluralize` and `Singularize` functions: pluralize only a List-typed
attribute whose pluralization round-trips back through singularization and
actually changes the string. -/
def willPluralize (pluralize singularize : String → String)
    (name : String) (typ : TFType) : Bool :=
  if typ.isList then
    let plu := pluralize name
    let distinct := plu != name
    let valid := singularize plu == name
    valid && distinct
  else
    false

/-- `toPropertyKey` from naming.go: use the plural form when `willPluralize`
holds, the name unchanged otherwise; never an error. -/
def toPropertyKey (pluralize singularize : String → String)
    (name : String) (typ : TFType) : String :=
  if willPluralize pluralize singularize name typ then pluralize name
  else name

/-- The result of a Go call that either returns normally or panics; a panic is
modelled as `fatal` carrying the panic message. -/
inductive Outcome (α : Type u) where
  | ok (value : α) : Outcome α
  | fatal (msg : String) : Outcome α

inductive DiagSeverity where
  | error : DiagSeverity
  | warning : DiagSeverity

structure Diagnostic where
  severity : DiagSeverity
  summary : String

/-- `Diagnostics.HasError`: whether any diagnostic has error severity. -/
def diagnosticsHasError (diags : List Diagnostic) : Bool :=
  diags.any fun d =>
    match d.severity with
    | .error => true
    | .warning => false

structure SchemaResponse (σ : Type) where
  schema : σ
  diagnostics : List Diagnostic

/-- Modelled from the spec: the wrapped modern-dialect plugin
(`pfprovider.Provider`) and the `pfutils` helpers are not among the sources;
the plugin is modelled by the data observable through the three calls the
schema-only adapter makes: the response its schema call writes, and the
results of gathering resource and data-source schemas. -/
structure PfProvider (σ ρ δ : Type) where
  schemaResponse : SchemaResponse σ
  gatherResources : Except String ρ
  gatherDatasources : Except String δ

/-- `SchemaOnlyProvider` from the schemashim package: a call context plus the
wrapped plugin-framework provider. -/
structure SchemaOnlyProvider (κ σ ρ δ : Type) where
  ctx : κ
  tf : PfProvider σ ρ δ

/-- Modelled from the spec: `newSchemaMap(pfutils.FromProviderSchema(...))`
is outside the sources; the schema map built from the wrapped plugin's
provider schema is modelled as a wrapper marking that construction. -/
structure SchemaMapModel (σ : Type) where
  fromProviderSchema : σ

/-- Modelled from the spec: the `schemaOnlyResourceMap` wrapper around the
gathered resource schemas. -/
structure SchemaOnlyResourceMap (ρ : Type) where
  resources : ρ

/-- Modelled from the spec: the `schemaOnlyDataSourceMap` wrapper around the
gathered data-source schemas. -/
structure SchemaOnlyDataSourceMap (δ : Type) where
  dataSources : δ

/-- `SchemaOnlyProvider.Schema`: issue the schema request, treat any
error-severity diagnostic as fatal, otherwise build the schema map from the
response. -/
def SchemaOnlyProvider.Schema (p : SchemaOnlyProvider κ σ ρ δ) :
    Outcome (SchemaMapModel σ) :=
  let schemaResp := p.tf.schemaResponse
  if diagnosticsHasError schemaResp.diagnostics then
    .fatal "Schema() returned error diags"
  else
    .ok ⟨schemaResp.schema⟩

/-- `SchemaOnlyProvider.ResourcesMap`: gather the resource schemas, any
gathering error is fatal. -/
def SchemaOnlyProvider.ResourcesMap (p : SchemaOnlyProvider κ σ ρ δ) :
    Outcome (SchemaOnlyResourceMap ρ) :=
  match p.tf.gatherResources with
  | .error err => .fatal err
  | .ok resources => .ok ⟨resources⟩

/-- `SchemaOnlyProvider.DataSourcesMap`: gather the data-source schemas, any
gathering error is fatal. -/
def SchemaOnlyProvider.DataSourcesMap (p : SchemaOnlyProvider κ σ ρ δ) :
    Outcome (SchemaOnlyDataSourceMap δ) :=
  match p.tf.gatherDatasources with
  | .error err => .fatal err
  | .ok dataSources => .ok ⟨dataSources⟩

def SchemaOnlyProvider.Validate (_p : SchemaOnlyProvider κ σ ρ δ)
    (_ctx : α) (_config : β) : Outcome γ :=
  .fatal "schemaOnlyProvider does not implement runtime operation Validate"

def SchemaOnlyProvider.ValidateResource (_p : SchemaOnlyProvider κ σ ρ δ)
    (_ctx : α) (_t : String) (_config : β) : Outcome γ :=
  .fatal "schemaOnlyProvider does not implement runtime operation ValidateResource"

def SchemaOnlyProvider.ValidateDataSource (_p : SchemaOnlyProvider κ σ ρ δ)
    (_ctx : α) (_t : String) (_config : β) : Outcome γ :=
  .fatal "schemaOnlyProvider does not implement runtime operation ValidateDataSource"

def SchemaOnlyProvider.Configure (_p : SchemaOnlyProvider κ σ ρ δ)
    (_ctx : α) (_config : β) : Outcome γ :=
  .fatal "schemaOnlyProvider does not implement runtime operation Configure"

def SchemaOnlyProvider.Diff (_p : SchemaOnlyProvider κ σ ρ δ)
    (_ctx : α) (_t : String) (_state : β₁) (_config : β₂) (_opts : β₃) : Outcome γ :=
  .fatal "schemaOnlyProvider does not implement runtime operation Diff"

def SchemaOnlyProvider.Apply (_p : SchemaOnlyProvider κ σ ρ δ)
    (_ctx : α) (_t : String) (_state : β₁) (_diff : β₂) : Outcome γ :=
  .fatal "schemaOnlyProvider does not implement runtime operation Apply"

def SchemaOnlyProvider.Refresh (_p : SchemaOnlyProvider κ σ ρ δ)
    (_ctx : α) (_t : String) (_state : β₁) (_config : β₂) : Outcome γ :=
  .fatal "schemaOnlyProvider does not implement runtime operation Refresh"

def SchemaOnlyProvider.ReadDataDiff (_p : SchemaOnlyProvider κ σ ρ δ)
    (_ctx : α) (_t : String) (_config : β) : Outcome γ :=
  .fatal "schemaOnlyProvider does not implement runtime operation ReadDataDiff"

def SchemaOnlyProvider.ReadDataApply (_p : SchemaOnlyProvider κ σ ρ δ)
    (_ctx : α) (_t : String) (_diff : β) : Outcome γ :=
  .fatal "schemaOnlyProvider does not implement runtime operation ReadDataApply"

def SchemaOnlyProvider.Meta (_p : SchemaOnlyProvider κ σ ρ δ)
    (_ctx : α) : Outcome γ :=
  .fatal "schemaOnlyProvider does not implement runtime operation Meta"

def SchemaOnlyProvider.Stop (_p : SchemaOnlyProvider κ σ ρ δ)
    (_ctx : α) : Outcome γ :=
  .fatal "schemaOnlyProvider does not implement runtime operation Stop"

def SchemaOnlyProvider.InitLogging (_p : SchemaOnlyProvider κ σ ρ δ)
    (_ctx : α) : Outcome γ :=
  .fatal "schemaOnlyProvider does not implement runtime operation InitLogging"

def SchemaOnlyProvider.NewDestroyDiff (_p : SchemaOnlyProvider κ σ ρ δ)
    (_ctx : α) (_t : String) (_opts : β) : Outcome γ :=
  .fatal "schemaOnlyProvider does not implement runtime operation NewDestroyDiff"

def SchemaOnlyProvider.NewResourceConfig (_p : SchemaOnlyProvider κ σ ρ δ)
    (_ctx : α) (_object : β) : Outcome γ :=
  .fatal "schemaOnlyProvider does not implement runtime operation ResourceConfig"

def SchemaOnlyProvider.IsSet (_p : SchemaOnlyProvider κ σ ρ δ)
    (_ctx : α) (_v : β) : Outcome γ :=
  .fatal "schemaOnlyProvider does not implement runtime operation IsSet"

/-- The fifteen runtime operations rejected by the schema-only adapter. -/
inductive RuntimeOp where
  | Configure | Diff | Apply | Refresh | ReadDataDiff | ReadDataApply
  | Validate | ValidateResource | ValidateDataSource | Stop | Meta
  | InitLogging | NewDestroyDiff | NewResourceConfig | IsSet
  deriving DecidableEq

def runtimeOpName : RuntimeOp → String
  | .Configure => "Configure"
  | .Diff => "Diff"
  | .Apply => "Apply"
  | .Refresh => "Refresh"
  | .ReadDataDiff => "ReadDataDiff"
  | .ReadDataApply => "ReadDataApply"
  | .Validate => "Validate"
  | .ValidateResource => "ValidateResource"
  | .ValidateDataSource => "ValidateDataSource"
  | .Stop => "Stop"
  | .Meta => "Meta"
  | .InitLogging => "InitLogging"
  | .NewDestroyDiff => "NewDestroyDiff"
  | .NewResourceConfig => "NewResourceConfig"
  | .IsSet => "IsSet"

/-- The panic message each runtime operation of the schema-only adapter
raises, literally as in the source. -/
def runtimeOpMessage : RuntimeOp → String
  | .Configure => "schemaOnlyProvider does not implement runtime operation Configure"
  | .Diff => "schemaOnlyProvider does not implement runtime operation Diff"
  | .Apply => "schemaOnlyProvider does not implement runtime operation Apply"
  | .Refresh => "schemaOnlyProvider does not implement runtime operation Refresh"
  | .ReadDataDiff => "schemaOnlyProvider does not implement runtime operation ReadDataDiff"
  | .ReadDataApply => "schemaOnlyProvider does not implement runtime operation ReadDataApply"
  | .Validate => "schemaOnlyProvider does not implement runtime operation Validate"
  | .ValidateResource => "schemaOnlyProvider does not implement runtime operation ValidateResource"
  | .ValidateDataSource => "schemaOnlyProvider does not implement runtime operation ValidateDataSource"
  | .Stop => "schemaOnlyProvider does not implement runtime operation Stop"
  | .Meta => "schemaOnlyProvider does not implement runtime operation Meta"
  | .InitLogging => "schemaOnlyProvider does not implement runtime operation InitLogging"
  | .NewDestroyDiff => "schemaOnlyProvider does not implement runtime operation NewDestroyDiff"
  | .NewResourceConfig => "schemaOnlyProvider does not implement runtime operation ResourceConfig"
  | .IsSet => "schemaOnlyProvider does not implement runtime operation IsSet"

/-- Whether `pat` occurs as a contiguous substring of `s`. -/
def strHasSubstr (s pat : String) : Bool :=
  (List.range (s.length + 1)).any fun i =>
    (s.toList.drop i).take pat.toList.length == pat.toList

mutual

/-- Modelled from the spec: the `shim.Schema` interface is not among the
sources; a schema is modelled as the record of the getters `MarshalSchema`
reads (Type, Optional, Required, Computed, ForceNew, Elem, MaxItems,
MinItems, Deprecated), plus `description` as a representative non-persisted
field, making the snapshot lossy as the spec states. The element is nil, a
schema, or a nested resource schema. -/
inductive ShimSchema where
  | mk (valueType : Int) (optional required computed forceNew : Bool)
      (elem : ShimElem) (maxItems minItems : Int)
      (deprecationMessage description : String) : ShimSchema

inductive ShimElem where
  | empty : ShimElem
  | schema (s : ShimSchema) : ShimElem
  | resource (r : ShimFields) : ShimElem

/-- A resource schema: the attribute-name-to-schema mapping reached by
`Range`. -/
inductive ShimFields where
  | nil : ShimFields
  | cons (key : String) (s : ShimSchema) (rest : ShimFields) : ShimFields

end

def ShimSchema.valueType : ShimSchema → Int
  | .mk t _ _ _ _ _ _ _ _ _ => t

def ShimSchema.optional : ShimSchema → Bool
  | .mk _ o _ _ _ _ _ _ _ _ => o

def ShimSchema.required : ShimSchema → Bool
  | .mk _ _ r _ _ _ _ _ _ _ => r

def ShimSchema.computed : ShimSchema → Bool
  | .mk _ _ _ c _ _ _ _ _ _ => c

def ShimSchema.forceNew : ShimSchema → Bool
  | .mk _ _ _ _ f _ _ _ _ _ => f

def ShimSchema.elem : ShimSchema → ShimElem
  | .mk _ _ _ _ _ e _ _ _ _ => e

def ShimSchema.maxItems : ShimSchema → Int
  | .mk _ _ _ _ _ _ mx _ _ _ => mx

def ShimSchema.minItems : ShimSchema → Int
  | .mk _ _ _ _ _ _ _ mn _ _ => mn

def ShimSchema.deprecationMessage : ShimSchema → String
  | .mk _ _ _ _ _ _ _ _ dep _ => dep

def ShimSchema.description : ShimSchema → String
  | .mk _ _ _ _ _ _ _ _ _ desc => desc

mutual

/-- `MarshallableSchema`: the JSON-marshallable form of a shim schema, holding
exactly the persisted fields. -/
inductive MarshallableSchema where
  | mk (valueType : Int) (optional required computed forceNew : Bool)
      (elem : MarshallableElemPtr) (maxItems minItems : Int)
      (deprecationMessage : String) : MarshallableSchema

/-- A possibly-nil pointer to a `MarshallableElem`, whose struct holds a
possibly-nil schema pointer and a possibly-nil resource map. -/
inductive MarshallableElemPtr where
  | null : MarshallableElemPtr
  | mk (schema : MarshallableSchemaPtr) (resource : MarshallableFields) :
      MarshallableElemPtr

inductive MarshallableSchemaPtr where
  | noSchema : MarshallableSchemaPtr
  | someSchema (s : MarshallableSchema) : MarshallableSchemaPtr

inductive MarshallableFields where
  | nil : MarshallableFields
  | cons (key : String) (s : MarshallableSchema) (rest : MarshallableFields) :
      MarshallableFields

end

mutual

/-- `MarshalSchema`: converts a shim schema into a `MarshallableSchema`,
persisting Type, Optional, Required, Computed, ForceNew, Elem, MaxItems,
MinItems and the deprecation message, and dropping everything else. -/
def MarshalSchema : ShimSchema → MarshallableSchema
  | .mk t o r c f e mx mn dep _desc => .mk t o r c f (MarshalElem e) mx mn dep

/-- `MarshalElem`: a nil element marshals to a nil pointer, a schema element
to a struct carrying the marshalled schema, a resource element to a struct
carrying the marshalled resource. -/
def MarshalElem : ShimElem → MarshallableElemPtr
  | .empty => .null
  | .schema s => .mk (.someSchema (MarshalSchema s)) .nil
  | .resource r => .mk .noSchema (MarshalResource r)

def MarshalResource : ShimFields → MarshallableFields
  | .nil => .nil
  | .cons k s rest => .cons k (MarshalSchema s) (MarshalResource rest)

end

mutual

/-- `MarshallableSchema.Unmarshal`: rebuilds a mostly-initialized shim schema
from the persisted fields; non-persisted fields come back as zero values. -/
def MarshallableSchema.Unmarshal : MarshallableSchema → ShimSchema
  | .mk t o r c f e mx mn dep =>
      .mk t o r c f (MarshallableElemPtr.UnmarshalElem e) mx mn dep ""

/-- Element unmarshalling: nil stays nil, a non-nil schema pointer wins,
otherwise the resource map (possibly empty) is unmarshalled. -/
def MarshallableElemPtr.UnmarshalElem : MarshallableElemPtr → ShimElem
  | .null => .empty
  | .mk (.someSchema s) _ => .schema (MarshallableSchema.Unmarshal s)
  | .mk .noSchema r => .resource (MarshallableFields.UnmarshalFields r)

def MarshallableFields.UnmarshalFields : MarshallableFields → ShimFields
  | .nil => .nil
  | .cons k s rest =>
      .cons k (MarshallableSchema.Unmarshal s) (MarshallableFields.UnmarshalFields rest)

end

mutual

theorem marshal_unmarshal_schema : ∀ s : ShimSchema,
    MarshalSchema (MarshallableSchema.Unmarshal (MarshalSchema s)) = MarshalSchema s
  | .mk t o r c f e mx mn dep desc => by
      simp only [MarshalSchema, MarshallableSchema.Unmarshal]
      rw [marshal_unmarshal_elem e]

theorem marshal_unmarshal_elem : ∀ e : ShimElem,
    MarshalElem (MarshallableElemPtr.UnmarshalElem (MarshalElem e)) = MarshalElem e
  | .empty => by simp [MarshalElem, MarshallableElemPtr.UnmarshalElem]
  | .schema s => by
      simp only [MarshalElem, MarshallableElemPtr.UnmarshalElem]
      rw [marshal_unmarshal_schema s]
  | .resource r => by
      simp only [MarshalElem, MarshallableElemPtr.UnmarshalElem]
      rw [marshal_unmarshal_fields r]

theorem marshal_unmarshal_fields : ∀ r : ShimFields,
    MarshalResource (MarshallableFields.UnmarshalFields (MarshalResource r)) =
      MarshalResource r
  | .nil => by simp [MarshalResource, MarshallableFields.UnmarshalFields]
  | .cons k s rest => by
      simp only [MarshalResource, MarshallableFields.UnmarshalFields]
      rw [marshal_unmarshal_schema s, marshal_unmarshal_fields rest]

end

/-- `DefaultInfo`: runtime default computation for a field. The Go function
fields `From` and `ComputeDefault` are modelled as optional Lean functions
whose invocation either returns a value or faults (models a Go panic);
`Value` is the nilable raw literal default. The context, options, resource
and value types are opaque parameters. -/
structure DefaultInfo (Ctx Opts Res Val : Type) where
  AutoNamed : Bool
  Config : String
  From : Option (Res → Outcome Val)
  ComputeDefault : Option (Ctx → Opts → Outcome Val)
  Value : Option Val
  EnvVars : List String

/-- `MarshallableDefaultInfo`: the JSON-marshallable form of a DefaultInfo;
the two function fields collapse into the single boolean `IsFunc`. -/
structure MarshallableDefaultInfo (Val : Type) where
  AutoNamed : Bool
  IsFunc : Bool
  Value : Option Val
  EnvVars : List String

/-- `MarshalDefaultInfo`: nil maps to nil; otherwise `IsFunc` records whether
`From` or `ComputeDefault` was set, and AutoNamed, Value and EnvVars are
copied. -/
def MarshalDefaultInfo (d : Option (DefaultInfo Ctx Opts Res Val)) :
    Option (MarshallableDefaultInfo Val) :=
  match d with
  | none => none
  | some d =>
      some { AutoNamed := d.AutoNamed,
             IsFunc := d.From.isSome || d.ComputeDefault.isSome,
             Value := d.Value,
             EnvVars := d.EnvVars }

/-- `MarshallableDefaultInfo.Unmarshal`: nil maps to nil; otherwise AutoNamed,
Value and EnvVars are restored and, when `IsFunc` is set, `ComputeDefault`
becomes a function that faults unconditionally when invoked. -/
def MarshallableDefaultInfo.Unmarshal (m : Option (MarshallableDefaultInfo Val)) :
    Option (DefaultInfo Ctx Opts Res Val) :=
  match m with
  | none => none
  | some m =>
      some { AutoNamed := m.AutoNamed,
             Config := "",
             From := none,
             ComputeDefault :=
               if m.IsFunc then
                 some fun _ _ =>
                   .fatal "transforms cannot be run on unmarshaled DefaultInfo values"
               else none,
             Value := m.Value,
             EnvVars := m.EnvVars }

def PropertyValue.isComputed : PropertyValue → Bool
  | .computed _ => true
  | _ => false

def PropertyValue.isOutput : PropertyValue → Bool
  | .output _ _ _ _ => true
  | _ => false

def PropertyValue.isSecret : PropertyValue → Bool
  | .secret _ => true
  | _ => false

def PropertyValue.isString : PropertyValue → Bool
  | .string _ => true
  | _ => false

def PropertyValue.outputKnown : PropertyValue → Bool
  | .output _ known _ _ => known
  | _ => false

def PropertyValue.outputIsSecret : PropertyValue → Bool
  | .output _ _ sec _ => sec
  | _ => false

def PropertyValue.outputElement : PropertyValue → PropertyValue
  | .output element _ _ _ => element
  | v => v

def PropertyValue.secretElement : PropertyValue → PropertyValue
  | .secret element => element
  | v => v

def PropertyValue.stringValue : PropertyValue → String
  | .string s => s
  | _ => ""

/-- The engine's `TypeString` rendering of a property value's dynamic type,
modelling the external SDK's formatting at the granularity the code needs. -/
def PropertyValue.typeString : PropertyValue → String
  | .null => "null"
  | .bool _ => "bool"
  | .number _ => "number"
  | .string _ => "string"
  | .array _ => "[]"
  | .object _ => "object"
  | .computed _ => "output"
  | .secret _ => "secret"
  | .output _ _ _ _ => "output"

def lookupProp : List (String × PropertyValue) → String → Option PropertyValue
  | [], _ => none
  | (k, v) :: rest, name => if k = name then some v else lookupProp rest name

/-- A single-quote character, used by the source's error and warning messages
to quote property names. -/
def singleQuote : String := String.singleton (Char.ofNat 39)

/-- `delegateIDFieldError`: the structured error produced by the ComputeID
delegate, carrying the message and the provider name / repo URL used by its
`Error()` rendering. -/
structure DelegateIDFieldError where
  msg : String
  providerName : String
  repoURL : String
  deriving DecidableEq

def DelegateIDFieldError.Error (e : DelegateIDFieldError) : String :=
  e.msg ++ ". This is an error in " ++ e.providerName ++
    " resource provider, please report at " ++ e.repoURL

/-- The observable result of running the ComputeID function returned by
`DelegateIDField`: either the contract assertion fired (a Go panic), or the
function returned an (id, error) pair, having logged the listed warnings. -/
inductive ComputeIDResult where
  | assertFailed (msg : String) : ComputeIDResult
  | ret (id : String) (err : Option DelegateIDFieldError)
      (warnings : List String) : ComputeIDResult

/-- `DelegateIDField`: delegates the resource ID to a string field in state.
A missing field is an error naming the property; a computed or unknown-output
value trips the contract assertion; a secret-wrapped or secret-output value
logs a warning and is unwrapped; a non-string (after unwrapping) is an error;
otherwise the string value becomes the ID. -/
def DelegateIDField (field providerName repoURL : String)
    (state : List (String × PropertyValue)) : ComputeIDResult :=
  match lookupProp state field with
  | none =>
      .ret ""
        (some { msg := "Could not find required property " ++ singleQuote ++
                  field ++ singleQuote ++ " in state",
                providerName := providerName, repoURL := repoURL }) []
  | some fieldValue =>
      if fieldValue.isComputed || (fieldValue.isOutput && !fieldValue.outputKnown) then
        .assertFailed
          "ComputeID is only called during when preview=false, so we should never need to deal with computed properties"
      else
        let secretCase := fieldValue.isSecret ||
          (fieldValue.isOutput && fieldValue.outputIsSecret)
        let warnings :=
          if secretCase then
            ["Setting non-secret resource ID as " ++ singleQuote ++ field ++
              singleQuote ++ " (which is secret)"]
          else []
        let unwrapped :=
          if secretCase then
            if fieldValue.isSecret then fieldValue.secretElement
            else fieldValue.outputElement
          else fieldValue
        if unwrapped.isString then
          .ret unwrapped.stringValue none warnings
        else
          .ret ""
            (some { msg := "Expected " ++ singleQuote ++ field ++ singleQuote ++
                      " property to be a string, found " ++ unwrapped.typeString,
                    providerName := providerName, repoURL := repoURL }) warnings

/-- C1: Unknown law of the Value Conversion Engine: for every TypeDescriptor
D, converting the Typed Unknown value with `ConvertTFValueToProperty(D)`
yields Property Computed wrapping the zero/default-shaped Property Value for
D (empty string for String, 0 for Number, false for Bool, empty Array/Object
for composites), and converting any Property Computed value back with
`ConvertPropertyToTFValue(D)` yields Typed Unknown — never the zero-shaped
Known value — regardless of the shape of the wrapped placeholder. -/
theorem c1_unknown_law :
    (∀ D : TFType,
      convertTFValueToProperty D .unknown = .ok (.computed (zeroValue D))) ∧
    zeroValue .string = .string "" ∧
    zeroValue .number = .number 0 ∧
    zeroValue .bool = .bool false ∧
    (∀ elemTy, zeroValue (.list elemTy) = .array []) ∧
    (∀ fieldTys, zeroValue (.object fieldTys) = .object []) ∧
    (∀ (D : TFType) (placeholder : PropertyValue),
      convertPropertyToTFValue D (.computed placeholder) = .ok .unknown) := by
  refine ⟨?_, rfl, rfl, rfl, fun _ => rfl, fun _ => rfl, ?_⟩
  · intro D
    cases D <;> rfl
  · intro D placeholder
    cases D <;> rfl

/-- C2: Number round-trip of the Value Conversion Engine: for every integer n
in the safely-representable range (magnitude at most 2^53, the 53-bit
significand limit), converting Typed Number(n) to Property and back yields
exactly n; for every Typed Number q, the round trip is stable when both sides
are compared at 53 bits of significand precision (`round53`, the comparison
the test performs via `big.Float.SetPrec(53)`). -/
theorem c2_number_roundtrip (n : ℤ) (q : ℚ) (h : |n| ≤ 2 ^ 53) :
    numberRoundTrip ((n : ℤ) : ℚ) = .ok (.number ((n : ℤ) : ℚ)) ∧
    ∃ q' : ℚ, numberRoundTrip q = .ok (.number q') ∧ round53 q' = round53 q := by
  constructor
  · have h1 : convertTFValueToProperty .number (.number ((n : ℤ) : ℚ)) =
        .ok (.number (round53 ((n : ℤ) : ℚ))) := rfl
    rw [numberRoundTrip, h1, round53_intCast n h]
    rfl
  · refine ⟨round53 q, ?_, round53_idem q⟩
    have h1 : convertTFValueToProperty .number (.number q) =
        .ok (.number (round53 q)) := rfl
    rw [numberRoundTrip, h1]
    rfl

/-- Witness for C2 at n = 42 and q = 3.12. -/
theorem c2_number_roundtrip_witness :
    |(42 : ℤ)| ≤ 2 ^ 53 ∧
    (numberRoundTrip (((42 : ℤ) : ℤ) : ℚ) = .ok (.number (((42 : ℤ) : ℤ) : ℚ)) ∧
      ∃ q' : ℚ, numberRoundTrip (312 / 100 : ℚ) = .ok (.number q') ∧
        round53 q' = round53 (312 / 100 : ℚ)) :=
  ⟨by norm_num, c2_number_roundtrip 42 (312 / 100) (by norm_num)⟩

/-- C3: Primitive round-trip law of the Value Conversion Engine: for every
TypeDescriptor D in Bool or String and every Known Typed value v of shape D,
the direct round trip `ToTyped(ToProperty(v))` returns v exactly, and the
three-step round trip `ToProperty(ToTyped(ToProperty(v)))` equals
`ToProperty(v)`. -/
theorem c3_primitive_roundtrip (D : TFType) (v : TFValue)
    (hD : D = .bool ∨ D = .string) (hv : knownOfShape D v = true) :
    (convertTFValueToProperty D v).bind (convertPropertyToTFValue D) = .ok v ∧
    ((convertTFValueToProperty D v).bind (convertPropertyToTFValue D)).bind
        (convertTFValueToProperty D) = convertTFValueToProperty D v := by
  rcases hD with rfl | rfl <;> cases v <;>
    first
      | exact ⟨rfl, rfl⟩
      | exact absurd hv (by simp [knownOfShape])

/-- Witness for C3 at D = Bool and v = Known true. -/
theorem c3_primitive_roundtrip_witness :
    ((TFType.bool = TFType.bool ∨ TFType.bool = TFType.string) ∧
      knownOfShape .bool (.bool true) = true) ∧
    ((convertTFValueToProperty .bool (.bool true)).bind
        (convertPropertyToTFValue .bool) = .ok (.bool true) ∧
      ((convertTFValueToProperty .bool (.bool true)).bind
          (convertPropertyToTFValue .bool)).bind (convertTFValueToProperty .bool) =
        convertTFValueToProperty .bool (.bool true)) :=
  ⟨⟨Or.inl rfl, rfl⟩, c3_primitive_roundtrip .bool (.bool true) (Or.inl rfl) rfl⟩

/-- The uniform message pattern of the schema-only adapter's
unsupported-operation panics. -/
def unsupportedRuntimeOpMsg (opDisplay : String) : String :=
  "schemaOnlyProvider does not implement runtime operation " ++ opDisplay

/-- C4 counterexample: the claim that every failure message names the
specific unsupported operation invoked is false at `NewResourceConfig`: the
operation panics, but its message reads "... runtime operation
ResourceConfig" and does not contain the operation name
"NewResourceConfig". -/
theorem c4_counterexample :
    SchemaOnlyProvider.NewResourceConfig
        (⟨(), ⟨⟨(), []⟩, .ok (), .ok ()⟩⟩ : SchemaOnlyProvider Unit Unit Unit Unit)
        () () = (.fatal (runtimeOpMessage .NewResourceConfig) : Outcome Unit) ∧
    strHasSubstr (runtimeOpMessage .NewResourceConfig)
      (runtimeOpName .NewResourceConfig) = false :=
  ⟨rfl, by decide⟩

/-- C4 (amended): every runtime operation of the schema-only adapter —
Configure, Diff, Apply, Refresh, ReadDataDiff, ReadDataApply, Validate,
ValidateResource, ValidateDataSource, Stop, Meta, InitLogging,
NewDestroyDiff, NewResourceConfig, IsSet — fails immediately and
unconditionally for every provider and argument values, never returning a
placeholder success; the failure message names the invoked operation for
every operation except NewResourceConfig, whose message names
"ResourceConfig" (dropping the "New" prefix). -/
theorem c4_schema_only_capability_boundary :
    (∀ op : RuntimeOp, op ≠ .NewResourceConfig →
      runtimeOpMessage op = unsupportedRuntimeOpMsg (runtimeOpName op)) ∧
    runtimeOpMessage .NewResourceConfig = unsupportedRuntimeOpMsg "ResourceConfig" ∧
    (∀ (κ σ ρ δ α β γ : Type) (p : SchemaOnlyProvider κ σ ρ δ) (ctx : α) (cfg : β),
      p.Configure ctx cfg = (.fatal (runtimeOpMessage .Configure) : Outcome γ)) ∧
    (∀ (κ σ ρ δ α β₁ β₂ β₃ γ : Type) (p : SchemaOnlyProvider κ σ ρ δ) (ctx : α)
        (t : String) (st : β₁) (cfg : β₂) (opts : β₃),
      p.Diff ctx t st cfg opts = (.fatal (runtimeOpMessage .Diff) : Outcome γ)) ∧
    (∀ (κ σ ρ δ α β₁ β₂ γ : Type) (p : SchemaOnlyProvider κ σ ρ δ) (ctx : α)
        (t : String) (st : β₁) (df : β₂),
      p.Apply ctx t st df = (.fatal (runtimeOpMessage .Apply) : Outcome γ)) ∧
    (∀ (κ σ ρ δ α β₁ β₂ γ : Type) (p : SchemaOnlyProvider κ σ ρ δ) (ctx : α)
        (t : String) (st : β₁) (cfg : β₂),
      p.Refresh ctx t st cfg = (.fatal (runtimeOpMessage .Refresh) : Outcome γ)) ∧
    (∀ (κ σ ρ δ α β γ : Type) (p : SchemaOnlyProvider κ σ ρ δ) (ctx : α)
        (t : String) (cfg : β),
      p.ReadDataDiff ctx t cfg = (.fatal (runtimeOpMessage .ReadDataDiff) : Outcome γ)) ∧
    (∀ (κ σ ρ δ α β γ : Type) (p : SchemaOnlyProvider κ σ ρ δ) (ctx : α)
        (t : String) (df : β),
      p.ReadDataApply ctx t df = (.fatal (runtimeOpMessage .ReadDataApply) : Outcome γ)) ∧
    (∀ (κ σ ρ δ α β γ : Type) (p : SchemaOnlyProvider κ σ ρ δ) (ctx : α) (cfg : β),
      p.Validate ctx cfg = (.fatal (runtimeOpMessage .Validate) : Outcome γ)) ∧
    (∀ (κ σ ρ δ α β γ : Type) (p : SchemaOnlyProvider κ σ ρ δ) (ctx : α)
        (t : String) (cfg : β),
      p.ValidateResource ctx t cfg =
        (.fatal (runtimeOpMessage .ValidateResource) : Outcome γ)) ∧
    (∀ (κ σ ρ δ α β γ : Type) (p : SchemaOnlyProvider κ σ ρ δ) (ctx : α)
        (t : String) (cfg : β),
      p.ValidateDataSource ctx t cfg =
        (.fatal (runtimeOpMessage .ValidateDataSource) : Outcome γ)) ∧
    (∀ (κ σ ρ δ α γ : Type) (p : SchemaOnlyProvider κ σ ρ δ) (ctx : α),
      p.Stop ctx = (.fatal (runtimeOpMessage .Stop) : Outcome γ)) ∧
    (∀ (κ σ ρ δ α γ : Type) (p : SchemaOnlyProvider κ σ ρ δ) (ctx : α),
      p.Meta ctx = (.fatal (runtimeOpMessage .Meta) : Outcome γ)) ∧
    (∀ (κ σ ρ δ α γ : Type) (p : SchemaOnlyProvider κ σ ρ δ) (ctx : α),
      p.InitLogging ctx = (.fatal (runtimeOpMessage .InitLogging) : Outcome γ)) ∧
    (∀ (κ σ ρ δ α β γ : Type) (p : SchemaOnlyProvider κ σ ρ δ) (ctx : α)
        (t : String) (opts : β),
      p.NewDestroyDiff ctx t opts =
        (.fatal (runtimeOpMessage .NewDestroyDiff) : Outcome γ)) ∧
    (∀ (κ σ ρ δ α β γ : Type) (p : SchemaOnlyProvider κ σ ρ δ) (ctx : α) (obj : β),
      p.NewResourceConfig ctx obj =
        (.fatal (runtimeOpMessage .NewResourceConfig) : Outcome γ)) ∧
    (∀ (κ σ ρ δ α β γ : Type) (p : SchemaOnlyProvider κ σ ρ δ) (ctx : α) (v : β),
      p.IsSet ctx v = (.fatal (runtimeOpMessage .IsSet) : Outcome γ)) := by
  refine ⟨?_, rfl, ?_, ?_, ?_, ?_, ?_, ?_, ?_, ?_, ?_, ?_, ?_, ?_, ?_, ?_, ?_⟩
  · intro op h
    cases op <;> first | rfl | exact absurd rfl h
  all_goals intros
  all_goals rfl

/-- Witness for C4 (amended): the naming pattern holds at the concrete
operation Validate, and Validate invoked on a concrete schema-only provider
fails with its message. -/
theorem c4_schema_only_capability_boundary_witness :
    runtimeOpMessage RuntimeOp.Validate =
      unsupportedRuntimeOpMsg (runtimeOpName RuntimeOp.Validate) ∧
    SchemaOnlyProvider.Validate
        (⟨(), ⟨⟨(), []⟩, .ok (), .ok ()⟩⟩ : SchemaOnlyProvider Unit Unit Unit Unit)
        () () = (.fatal (runtimeOpMessage .Validate) : Outcome Unit) :=
  ⟨c4_schema_only_capability_boundary.1 RuntimeOp.Validate (by decide),
    c4_schema_only_capability_boundary.2.2.2.2.2.2.2.2.1
      Unit Unit Unit Unit Unit Unit Unit
      (⟨(), ⟨⟨(), []⟩, .ok (), .ok ()⟩⟩ : SchemaOnlyProvider Unit Unit Unit Unit) () ()⟩

/-- C5: Fatal schema error: if the wrapped plugin's schema computation
reports any error-severity diagnostic then `Schema()` fails fatally; if
gathering resource or data-source schemas returns an error then
`ResourcesMap()` / `DataSourcesMap()` fail fatally with it; conversely, when
no error occurs, they return the schema maps built from the wrapped plugin's
response. -/
theorem c5_fatal_schema_error {κ σ ρ δ : Type} (p : SchemaOnlyProvider κ σ ρ δ) :
    (diagnosticsHasError p.tf.schemaResponse.diagnostics = true →
      p.Schema = (.fatal "Schema() returned error diags" : Outcome (SchemaMapModel σ))) ∧
    (diagnosticsHasError p.tf.schemaResponse.diagnostics = false →
      p.Schema = .ok ⟨p.tf.schemaResponse.schema⟩) ∧
    (∀ e, p.tf.gatherResources = .error e → p.ResourcesMap = .fatal e) ∧
    (∀ rs, p.tf.gatherResources = .ok rs → p.ResourcesMap = .ok ⟨rs⟩) ∧
    (∀ e, p.tf.gatherDatasources = .error e → p.DataSourcesMap = .fatal e) ∧
    (∀ ds, p.tf.gatherDatasources = .ok ds → p.DataSourcesMap = .ok ⟨ds⟩) := by
  refine ⟨?_, ?_, ?_, ?_, ?_, ?_⟩
  · intro h
    simp [SchemaOnlyProvider.Schema, h]
  · intro h
    simp [SchemaOnlyProvider.Schema, h]
  · intro e h
    simp [SchemaOnlyProvider.ResourcesMap, h]
  · intro rs h
    simp [SchemaOnlyProvider.ResourcesMap, h]
  · intro e h
    simp [SchemaOnlyProvider.DataSourcesMap, h]
  · intro ds h
    simp [SchemaOnlyProvider.DataSourcesMap, h]

/-- Witness for C5 on a provider whose schema call reports an error
diagnostic and whose resource gathering succeeds. -/
theorem c5_fatal_schema_error_witness :
    diagnosticsHasError
        ((⟨(), ⟨⟨(), [⟨.error, "bad schema"⟩]⟩, .ok (), .ok ()⟩⟩ :
          SchemaOnlyProvider Unit Unit Unit Unit)).tf.schemaResponse.diagnostics = true ∧
    (⟨(), ⟨⟨(), [⟨.error, "bad schema"⟩]⟩, .ok (), .ok ()⟩⟩ :
        SchemaOnlyProvider Unit Unit Unit Unit).Schema =
      (.fatal "Schema() returned error diags" : Outcome (SchemaMapModel Unit)) ∧
    (⟨(), ⟨⟨(), [⟨.error, "bad schema"⟩]⟩, .ok (), .ok ()⟩⟩ :
        SchemaOnlyProvider Unit Unit Unit Unit).ResourcesMap =
      .ok ⟨()⟩ :=
  ⟨rfl,
    (c5_fatal_schema_error _).1 rfl,
    (c5_fatal_schema_error
      (⟨(), ⟨⟨(), [⟨.error, "bad schema"⟩]⟩, .ok (), .ok ()⟩⟩ :
        SchemaOnlyProvider Unit Unit Unit Unit)).2.2.2.1 () rfl⟩

/-- C6: Naming Rule: `toPropertyKey(s, t)` returns `Pluralize(s)` exactly
when t is a List type, the singularization of the pluralized name maps back
to s, and pluralizing actually changes the string; in every other case it
returns s unchanged, never an error. Stated parametrically in the external
inflector's Pluralize and Singularize functions. -/
theorem c6_naming_rule (pluralize singularize : String → String)
    (name : String) (typ : TFType) :
    toPropertyKey pluralize singularize name typ =
      if typ.isList = true ∧ singularize (pluralize name) = name ∧
          pluralize name ≠ name
      then pluralize name
      else name := by
  simp only [toPropertyKey, willPluralize]
  cases htyp : typ.isList
  · simp [htyp]
  · by_cases hval : singularize (pluralize name) = name <;>
      by_cases hdis : pluralize name = name <;>
        simp [htyp, hval, hdis]

/-- C7: Pluralization idempotence: whenever `toPropertyKey` pluralizes a name
(the name is round-trip-safe and pluralizing changes it), applying it a
second time to the already-pluralized result under the same TypeDescriptor
returns it unchanged. Stated parametrically in the inflector functions, under
the hypothesis — satisfied by the inflector library on already-plural forms —
that pluralizing the pluralized name is idempotent. -/
theorem c7_pluralize_idempotent (pluralize singularize : String → String)
    (name : String) (typ : TFType)
    (h : willPluralize pluralize singularize name typ = true)
    (hidem : pluralize (pluralize name) = pluralize name) :
    toPropertyKey pluralize singularize
        (toPropertyKey pluralize singularize name typ) typ =
      toPropertyKey pluralize singularize name typ := by
  have h1 : toPropertyKey pluralize singularize name typ = pluralize name := by
    simp [toPropertyKey, h]
  rw [h1]
  have h2 : willPluralize pluralize singularize (pluralize name) typ = false := by
    simp only [willPluralize]
    cases htyp : typ.isList
    · simp [htyp]
    · simp [htyp, hidem]
  simp [toPropertyKey, h2]

/-- Witness for C7 with a concrete round-trip-safe inflection pair at the
name "instance" under a List(String) descriptor. -/
theorem c7_pluralize_idempotent_witness :
    willPluralize (fun s => if s = "instance" then "instances" else s)
        (fun s => if s = "instances" then "instance" else s)
        "instance" (.list .string) = true ∧
    (fun s => if s = "instance" then "instances" else s)
        ((fun s => if s = "instance" then "instances" else s) "instance") =
      (fun s => if s = "instance" then "instances" else s) "instance" ∧
    toPropertyKey (fun s => if s = "instance" then "instances" else s)
        (fun s => if s = "instances" then "instance" else s)
        (toPropertyKey (fun s => if s = "instance" then "instances" else s)
          (fun s => if s = "instances" then "instance" else s)
          "instance" (.list .string)) (.list .string) =
      toPropertyKey (fun s => if s = "instance" then "instances" else s)
        (fun s => if s = "instances" then "instance" else s)
        "instance" (.list .string) :=
  ⟨by decide, by decide,
    c7_pluralize_idempotent _ _ "instance" (.list .string) (by decide) (by decide)⟩

/-- C8: Metadata snapshot round trip: for every shim schema s,
`MarshalSchema(s).Unmarshal()` yields a schema agreeing with s on exactly the
persisted fields — Type, Optional, Required, Computed, ForceNew, MaxItems,
MinItems, DeprecationMessage, and recursively the nested Elem — and
`Unmarshal` after `MarshalSchema` is the identity on the MarshallableSchema
representation. -/
theorem c8_metadata_roundtrip (s : ShimSchema) :
    (MarshallableSchema.Unmarshal (MarshalSchema s)).valueType = s.valueType ∧
    (MarshallableSchema.Unmarshal (MarshalSchema s)).optional = s.optional ∧
    (MarshallableSchema.Unmarshal (MarshalSchema s)).required = s.required ∧
    (MarshallableSchema.Unmarshal (MarshalSchema s)).computed = s.computed ∧
    (MarshallableSchema.Unmarshal (MarshalSchema s)).forceNew = s.forceNew ∧
    (MarshallableSchema.Unmarshal (MarshalSchema s)).maxItems = s.maxItems ∧
    (MarshallableSchema.Unmarshal (MarshalSchema s)).minItems = s.minItems ∧
    (MarshallableSchema.Unmarshal (MarshalSchema s)).deprecationMessage =
      s.deprecationMessage ∧
    MarshalElem (MarshallableSchema.Unmarshal (MarshalSchema s)).elem =
      MarshalElem s.elem ∧
    MarshalSchema (MarshallableSchema.Unmarshal (MarshalSchema s)) =
      MarshalSchema s := by
  cases s with
  | mk t o r c f e mx mn dep desc =>
    exact ⟨rfl, rfl, rfl, rfl, rfl, rfl, rfl, rfl,
      marshal_unmarshal_elem e, marshal_unmarshal_schema _⟩

/-- C9: Secret-stripping for identity fields: the ComputeID function built by
`DelegateIDField` unwraps a Secret-wrapped (or secret-marked known Output)
string, logging a warning, and returns the unwrapped string as the resource
ID without error; a field absent from the state is an error naming the
missing property; a non-string value (before or after unwrapping) is an
error; in both error cases the returned ID is empty. -/
theorem c9_delegate_id_field (field providerName repoURL : String)
    (state : List (String × PropertyValue)) :
    (∀ s, lookupProp state field = some (.secret (.string s)) →
      DelegateIDField field providerName repoURL state =
        .ret s none
          ["Setting non-secret resource ID as " ++ singleQuote ++ field ++
            singleQuote ++ " (which is secret)"]) ∧
    (∀ s deps, lookupProp state field = some (.output (.string s) true true deps) →
      DelegateIDField field providerName repoURL state =
        .ret s none
          ["Setting non-secret resource ID as " ++ singleQuote ++ field ++
            singleQuote ++ " (which is secret)"]) ∧
    (lookupProp state field = none →
      DelegateIDField field providerName repoURL state =
        .ret ""
          (some { msg := "Could not find required property " ++ singleQuote ++
                    field ++ singleQuote ++ " in state",
                  providerName := providerName, repoURL := repoURL }) []) ∧
    (∀ v, lookupProp state field = some v →
      v.isComputed = false → v.isOutput = false → v.isSecret = false →
      v.isString = false →
      ∃ e, DelegateIDField field providerName repoURL state = .ret "" (some e) []) ∧
    (∀ u, lookupProp state field = some (.secret u) → u.isString = false →
      ∃ e, DelegateIDField field providerName repoURL state =
        .ret "" (some e)
          ["Setting non-secret resource ID as " ++ singleQuote ++ field ++
            singleQuote ++ " (which is secret)"]) ∧
    (∀ u deps, lookupProp state field = some (.output u true true deps) →
      u.isString = false →
      ∃ e, DelegateIDField field providerName repoURL state =
        .ret "" (some e)
          ["Setting non-secret resource ID as " ++ singleQuote ++ field ++
            singleQuote ++ " (which is secret)"]) ∧
    (∀ u deps, lookupProp state field = some (.output u true false deps) →
      ∃ e, DelegateIDField field providerName repoURL state =
        .ret "" (some e) []) := by
  refine ⟨?_, ?_, ?_, ?_, ?_, ?_, ?_⟩
  · intro s h
    unfold DelegateIDField
    rw [h]
    rfl
  · intro s deps h
    unfold DelegateIDField
    rw [h]
    rfl
  · intro h
    unfold DelegateIDField
    rw [h]
  · intro v h hc ho hs hstr
    refine ⟨⟨"Expected " ++ singleQuote ++ field ++ singleQuote ++
      " property to be a string, found " ++ v.typeString, providerName, repoURL⟩, ?_⟩
    unfold DelegateIDField
    rw [h]
    simp [hc, ho, hs, hstr]
  · intro u h hstr
    refine ⟨⟨"Expected " ++ singleQuote ++ field ++ singleQuote ++
      " property to be a string, found " ++ u.typeString, providerName, repoURL⟩, ?_⟩
    unfold DelegateIDField
    rw [h]
    simp [PropertyValue.isComputed, PropertyValue.isOutput, PropertyValue.isSecret,
      PropertyValue.secretElement, hstr]
  · intro u deps h hstr
    refine ⟨⟨"Expected " ++ singleQuote ++ field ++ singleQuote ++
      " property to be a string, found " ++ u.typeString, providerName, repoURL⟩, ?_⟩
    unfold DelegateIDField
    rw [h]
    simp [PropertyValue.isComputed, PropertyValue.isOutput, PropertyValue.isSecret,
      PropertyValue.outputKnown, PropertyValue.outputIsSecret,
      PropertyValue.outputElement, hstr]
  · intro u deps h
    refine ⟨⟨"Expected " ++ singleQuote ++ field ++ singleQuote ++
      " property to be a string, found " ++
      (PropertyValue.output u true false deps).typeString, providerName, repoURL⟩, ?_⟩
    unfold DelegateIDField
    rw [h]
    rfl

/-- Witness for C9: a state whose "id" field is a Secret-wrapped string, and
one whose "id" field is a known secret Output wrapping a number. -/
theorem c9_delegate_id_field_witness :
    lookupProp [("id", PropertyValue.secret (.string "i-123"))] "id" =
      some (.secret (.string "i-123")) ∧
    DelegateIDField "id" "railway" "https://example.com/repo"
        [("id", PropertyValue.secret (.string "i-123"))] =
      .ret "i-123" none
        ["Setting non-secret resource ID as " ++ singleQuote ++ "id" ++
          singleQuote ++ " (which is secret)"] ∧
    (PropertyValue.number 5).isString = false ∧
    (∃ e, DelegateIDField "id" "railway" "https://example.com/repo"
        [("id", PropertyValue.output (.number 5) true true [])] =
      .ret "" (some e)
        ["Setting non-secret resource ID as " ++ singleQuote ++ "id" ++
          singleQuote ++ " (which is secret)"]) :=
  ⟨rfl,
    (c9_delegate_id_field "id" "railway" "https://example.com/repo"
      [("id", PropertyValue.secret (.string "i-123"))]).1 "i-123" rfl,
    rfl,
    (c9_delegate_id_field "id" "railway" "https://example.com/repo"
      [("id", PropertyValue.output (.number 5) true true [])]).2.2.2.2.2.1
      (.number 5) [] rfl rfl⟩

/-- C10: marshalling erases default-computing functions irrecoverably: for
every DefaultInfo d with From or ComputeDefault non-nil,
`MarshalDefaultInfo(d).Unmarshal()` yields a DefaultInfo whose ComputeDefault
is non-nil but faults unconditionally whenever invoked, for every context and
options, while AutoNamed, Value and EnvVars are preserved; for d with neither
function set, the unmarshaled ComputeDefault is nil. -/
theorem c10_default_info_marshalling {Ctx Opts Res Val : Type}
    (d : DefaultInfo Ctx Opts Res Val) :
    ∃ di : DefaultInfo Ctx Opts Res Val,
      MarshallableDefaultInfo.Unmarshal (MarshalDefaultInfo (some d)) = some di ∧
      di.AutoNamed = d.AutoNamed ∧ di.Value = d.Value ∧ di.EnvVars = d.EnvVars ∧
      di.From = none ∧
      ((d.From.isSome || d.ComputeDefault.isSome) = true →
        ∃ f, di.ComputeDefault = some f ∧ ∀ (ctx : Ctx) (opts : Opts),
          f ctx opts =
            .fatal "transforms cannot be run on unmarshaled DefaultInfo values") ∧
      (d.From = none → d.ComputeDefault = none → di.ComputeDefault = none) := by
  refine ⟨_, rfl, rfl, rfl, rfl, rfl, ?_, ?_⟩
  · intro h
    refine ⟨_, ?_, fun _ _ => rfl⟩
    simp only [MarshalDefaultInfo, MarshallableDefaultInfo.Unmarshal, h, if_true]
  · intro h1 h2
    simp only [MarshalDefaultInfo, MarshallableDefaultInfo.Unmarshal, h1, h2,
      Option.isSome_none, Bool.or_self, Bool.false_eq_true, if_false]

/-- Witness for C10 at a DefaultInfo with a ComputeDefault function set. -/
theorem c10_default_info_marshalling_witness :
    ∃ di : DefaultInfo Unit Unit Unit Nat,
      MarshallableDefaultInfo.Unmarshal
          (MarshalDefaultInfo (some
            ({ AutoNamed := true, Config := "", From := none,
               ComputeDefault := some fun _ _ => .ok 7,
               Value := some 7, EnvVars := ["ENV_A"] } :
              DefaultInfo Unit Unit Unit Nat))) = some di ∧
      ∃ f, di.ComputeDefault = some f ∧
        f () () = .fatal "transforms cannot be run on unmarshaled DefaultInfo values" := by
  obtain ⟨di, hdi, _, _, _, _, hfunc, _⟩ :=
    c10_default_info_marshalling
      ({ AutoNamed := true, Config := "", From := none,
         ComputeDefault := some fun _ _ => .ok 7,
         Value := some 7, EnvVars := ["ENV_A"] } : DefaultInfo Unit Unit Unit Nat)
  obtain ⟨f, hf, hall⟩ := hfunc rfl
  exact ⟨di, hdi, f, hf, hall () ()⟩
